import Mathlib

/-!
Shallow embedding of the TurfPro bridge relay (`src/bridge/app.py`).

Python strings are modelled as lists of Unicode codepoints (`List Nat`),
byte strings as lists of bytes (`List Nat`, each < 256).  The SHA-256 and
HMAC primitives used by `verify_hmac` (Python `hashlib.sha256` /
`hmac.new(..., hashlib.sha256)`) are implemented concretely below,
following FIPS 180-4 / RFC 2104.
-/

/-- Wraparound modulus for 32-bit words. -/
def M32 : Nat := 4294967296

/-- Rotate a 32-bit word right by `n` bits. -/
def rotr (n x : Nat) : Nat := ((x >>> n) ||| (x <<< (32 - n))) % M32

/-- SHA-256 choice function. -/
def ch (x y z : Nat) : Nat := (x &&& y) ^^^ ((x ^^^ 4294967295) &&& z)

/-- SHA-256 majority function. -/
def maj (x y z : Nat) : Nat := (x &&& y) ^^^ (x &&& z) ^^^ (y &&& z)

/-- SHA-256 big sigma 0. -/
def bsig0 (x : Nat) : Nat := rotr 2 x ^^^ rotr 13 x ^^^ rotr 22 x

/-- SHA-256 big sigma 1. -/
def bsig1 (x : Nat) : Nat := rotr 6 x ^^^ rotr 11 x ^^^ rotr 25 x

/-- SHA-256 small sigma 0. -/
def ssig0 (x : Nat) : Nat := rotr 7 x ^^^ rotr 18 x ^^^ (x >>> 3)

/-- SHA-256 small sigma 1. -/
def ssig1 (x : Nat) : Nat := rotr 17 x ^^^ rotr 19 x ^^^ (x >>> 10)

/-- SHA-256 round constants. -/
def sha256K : List Nat :=
  [1116352408, 1899447441, 3049323471, 3921009573, 961987163,
   1508970993, 2453635748, 2870763221, 3624381080, 310598401,
   607225278, 1426881987, 1925078388, 2162078206, 2614888103,
   3248222580, 3835390401, 4022224774, 264347078, 604807628,
   770255983, 1249150122, 1555081692, 1996064986, 2554220882,
   2821834349, 2952996808, 3210313671, 3336571891, 3584528711,
   113926993, 338241895, 666307205, 773529912, 1294757372,
   1396182291, 1695183700, 1986661051, 2177026350, 2456956037,
   2730485921, 2820302411, 3259730800, 3345764771, 3516065817,
   3600352804, 4094571909, 275423344, 430227734, 506948616,
   659060556, 883997877, 958139571, 1322822218, 1537002063,
   1747873779, 1955562222, 2024104815, 2227730452, 2361852424,
   2428436474, 2756734187, 3204031479, 3329325298]

/-- SHA-256 initial hash state. -/
def sha256Init : List Nat :=
  [1779033703, 3144134277, 1013904242, 2773480762,
   1359893119, 2600822924, 528734635, 1541459225]

/-- Big-endian bytes of `x`, `n` bytes wide. -/
def toBytesBE : Nat → Nat → List Nat
  | 0, _ => []
  | n + 1, x => toBytesBE n (x / 256) ++ [x % 256]

/-- Group a byte list into big-endian 32-bit words (4 bytes each). -/
def bytesToWords : List Nat → List Nat
  | a :: b :: c :: d :: rest => (((a * 256 + b) * 256 + c) * 256 + d) :: bytesToWords rest
  | _ => []

/-- SHA-256 padding: append 0x80, zeros, and the 64-bit big-endian bit length. -/
def sha256Pad (msg : List Nat) : List Nat :=
  msg ++ 128 :: (List.replicate ((119 - msg.length % 64) % 64) 0 ++ toBytesBE 8 (8 * msg.length))

/-- Split a byte list into 64-byte chunks. -/
def chunks64 : List Nat → List (List Nat)
  | [] => []
  | b :: rest => ((b :: rest).take 64) :: chunks64 ((b :: rest).drop 64)
termination_by l => l.length
decreasing_by simp [List.length_drop]; omega

/-- One step of the SHA-256 message-schedule extension; the word list is kept
most-recent first. -/
def scheduleStep (w : List Nat) : List Nat :=
  ((ssig1 (w.getD 1 0) + w.getD 6 0 + ssig0 (w.getD 14 0) + w.getD 15 0) % M32) :: w

/-- Extend the 16 chunk words to the 64-entry SHA-256 message schedule. -/
def sha256Schedule (ws : List Nat) : List Nat :=
  ((List.range 48).foldl (fun w _ => scheduleStep w) ws.reverse).reverse

/-- One SHA-256 compression round; the state is the 8-word list [a,b,c,d,e,f,g,h]
and `kw` the pair of schedule word and round constant. -/
def compressStep (s : List Nat) (kw : Nat × Nat) : List Nat :=
  match s with
  | [a, b, c, d, e, f, g, h] =>
    let t1 := (h + bsig1 e + ch e f g + kw.2 + kw.1) % M32
    let t2 := (bsig0 a + maj a b c) % M32
    [(t1 + t2) % M32, a, b, c, (d + t1) % M32, e, f, g]
  | t => t

/-- Compress one 64-byte chunk into the running 8-word state. -/
def sha256Compress (h : List Nat) (chunk : List Nat) : List Nat :=
  let w := sha256Schedule (bytesToWords chunk)
  let s := (w.zip sha256K).foldl compressStep h
  (h.zip s).map (fun p => (p.1 + p.2) % M32)

/-- SHA-256 of a byte list, as the 32-byte digest. -/
def sha256 (msg : List Nat) : List Nat :=
  List.flatten (((chunks64 (sha256Pad msg)).foldl sha256Compress sha256Init).map (toBytesBE 4))

/-- ASCII code of the lowercase hex digit for `n < 16`. -/
def hexChar (n : Nat) : Nat := if n < 10 then 48 + n else 87 + n

/-- Python `.hexdigest()`: the digest bytes rendered as a lowercase hex string
(ASCII codes), two characters per byte. -/
def hexdigest (bytes : List Nat) : List Nat :=
  List.flatten (bytes.map (fun b => [hexChar (b / 16), hexChar (b % 16)]))

/-- HMAC key preparation: hash keys longer than the 64-byte block, then pad
with zeros to the block size (RFC 2104). -/
def hmacKeyBlock (key : List Nat) : List Nat :=
  let k := if 64 < key.length then sha256 key else key
  k ++ List.replicate (64 - k.length) 0

/-- HMAC-SHA256 of `msg` under `key`, as the 32-byte digest
(Python `hmac.new(key, msg, hashlib.sha256)`). -/
def hmacSha256 (key msg : List Nat) : List Nat :=
  let k := hmacKeyBlock key
  sha256 ((k.map (fun b => b ^^^ 92)) ++ sha256 ((k.map (fun b => b ^^^ 54)) ++ msg))

/-- Exceptions the Python code can raise on the verification path:
`TypeError` from `hmac.compare_digest` on a non-ASCII string operand, and
`UnicodeEncodeError` from `str.encode()` on a lone surrogate. -/
inductive PyExn where
  | typeError
  | unicodeEncodeError
deriving DecidableEq

/-- The CPython `_tscmp` loop behind `hmac.compare_digest`: when the lengths
differ the loop still runs over all of `b` comparing `b` against itself, with
the result forced non-zero; otherwise it accumulates the or of the bytewise
xors.  The loop never exits early. -/
def tscmp (a b : List Nat) : Bool :=
  (((if a.length = b.length then a else b).zip b).foldl
      (fun acc p => acc ||| (p.1 ^^^ p.2)) (if a.length = b.length then 0 else 1)) == 0

/-- Python `hmac.compare_digest` on `str` operands: CPython first requires
both strings to be ASCII and raises `TypeError` otherwise ("comparing strings
with non-ASCII characters is not supported"); only then does the constant-time
`_tscmp` loop run. -/
def compare_digest (a b : List Nat) : Except PyExn Bool :=
  if a.all (fun c => c < 128) && b.all (fun c => c < 128) then .ok (tscmp a b)
  else .error .typeError

/-- Number of loop iterations `_tscmp` performs: the length of the zipped
list it folds over. -/
def compareDigestSteps (a b : List Nat) : Nat :=
  ((if a.length = b.length then a else b).zip b).length

/-- UTF-8 encoding of a single codepoint (shortest form). -/
def utf8EncodeChar (c : Nat) : List Nat :=
  if c < 128 then [c]
  else if c < 2048 then [192 + c / 64, 128 + c % 64]
  else if c < 65536 then [224 + c / 4096, 128 + c / 64 % 64, 128 + c % 64]
  else [240 + c / 262144, 128 + c / 4096 % 64, 128 + c / 64 % 64, 128 + c % 64]

/-- UTF-8 encoding of a codepoint list (Python `str.encode()`). -/
def utf8Encode (cs : List Nat) : List Nat := List.flatten (cs.map utf8EncodeChar)

/-- The `verify_hmac` function of `src/bridge/app.py`: returns false when the
shared secret is empty (before anything can raise); otherwise `data.encode()`
raises `UnicodeEncodeError` if `data` holds a lone surrogate
(U+D800 to U+DFFF), and otherwise the hex HMAC-SHA256 digest of the UTF-8
encoding of `data` is compared against `signature` with
`hmac.compare_digest`, which itself raises `TypeError` when `signature` is
not pure ASCII.  An `.error` result models the exception propagating out of
the function. -/
def verify_hmac (secret data signature : List Nat) : Except PyExn Bool :=
  if secret = [] then .ok false
  else if data.any (fun c => 55296 ≤ c && c ≤ 57343) then .error .unicodeEncodeError
  else compare_digest (hexdigest (hmacSha256 secret (utf8Encode data))) signature

/-- Decode one UTF-8 sequence starting at lead byte `b` with the following
bytes in `rest`: the resulting codepoint and how many bytes of `rest` were
consumed.  Invalid sequences yield the replacement character U+FFFD (65533),
matching Python `bytes.decode` with the `replace` error handler: one
replacement per maximal invalid subpart, overlongs and surrogates rejected. -/
def utf8Step (b : Nat) (rest : List Nat) : Nat × Nat :=
  if b < 128 then (b, 0)
  else if 194 ≤ b ∧ b ≤ 223 then
    match rest with
    | c :: _ =>
      if 128 ≤ c ∧ c ≤ 191 then ((b - 192) * 64 + (c - 128), 1) else (65533, 0)
    | [] => (65533, 0)
  else if 224 ≤ b ∧ b ≤ 239 then
    match rest with
    | c1 :: c2 :: _ =>
      if (if b = 224 then 160 ≤ c1 ∧ c1 ≤ 191
          else if b = 237 then 128 ≤ c1 ∧ c1 ≤ 159
          else 128 ≤ c1 ∧ c1 ≤ 191) then
        if 128 ≤ c2 ∧ c2 ≤ 191 then
          ((b - 224) * 4096 + (c1 - 128) * 64 + (c2 - 128), 2)
        else (65533, 1)
      else (65533, 0)
    | [c1] =>
      if (if b = 224 then 160 ≤ c1 ∧ c1 ≤ 191
          else if b = 237 then 128 ≤ c1 ∧ c1 ≤ 159
          else 128 ≤ c1 ∧ c1 ≤ 191) then (65533, 1) else (65533, 0)
    | [] => (65533, 0)
  else if 240 ≤ b ∧ b ≤ 244 then
    match rest with
    | c1 :: c2 :: c3 :: _ =>
      if (if b = 240 then 144 ≤ c1 ∧ c1 ≤ 191
          else if b = 244 then 128 ≤ c1 ∧ c1 ≤ 143
          else 128 ≤ c1 ∧ c1 ≤ 191) then
        if 128 ≤ c2 ∧ c2 ≤ 191 then
          if 128 ≤ c3 ∧ c3 ≤ 191 then
            ((b - 240) * 262144 + (c1 - 128) * 4096 + (c2 - 128) * 64 + (c3 - 128), 3)
          else (65533, 2)
        else (65533, 1)
      else (65533, 0)
    | [c1, c2] =>
      if (if b = 240 then 144 ≤ c1 ∧ c1 ≤ 191
          else if b = 244 then 128 ≤ c1 ∧ c1 ≤ 143
          else 128 ≤ c1 ∧ c1 ≤ 191) then
        if 128 ≤ c2 ∧ c2 ≤ 191 then (65533, 2) else (65533, 1)
      else (65533, 0)
    | [c1] =>
      if (if b = 240 then 144 ≤ c1 ∧ c1 ≤ 191
          else if b = 244 then 128 ≤ c1 ∧ c1 ≤ 143
          else 128 ≤ c1 ∧ c1 ≤ 191) then (65533, 1) else (65533, 0)
    | [] => (65533, 0)
  else (65533, 0)

/-- UTF-8 decoding with replacement of a byte list to a codepoint list,
modelling Werkzeug `Request.get_data(as_text=True)`, which is
`bytes.decode("utf-8", errors="replace")` on the raw request body. -/
def utf8DecodeReplace : List Nat → List Nat
  | [] => []
  | b :: rest =>
    (utf8Step b rest).1 :: utf8DecodeReplace (rest.drop (utf8Step b rest).2)
termination_by l => l.length
decreasing_by simp [List.length_drop]; omega

/-- Byte lists that are well-formed UTF-8: exactly those the decoder accepts
without producing a replacement character (ASCII, and well-formed 2-, 3- and
4-byte sequences with overlongs and surrogates excluded). -/
inductive ValidUtf8 : List Nat → Prop where
  | nil : ValidUtf8 []
  | ascii {b : Nat} {rest : List Nat} :
      b < 128 → ValidUtf8 rest → ValidUtf8 (b :: rest)
  | two {b c : Nat} {rest : List Nat} :
      194 ≤ b → b ≤ 223 → 128 ≤ c → c ≤ 191 →
      ValidUtf8 rest → ValidUtf8 (b :: c :: rest)
  | three {b c1 c2 : Nat} {rest : List Nat} :
      224 ≤ b → b ≤ 239 →
      (if b = 224 then 160 ≤ c1 ∧ c1 ≤ 191
       else if b = 237 then 128 ≤ c1 ∧ c1 ≤ 159
       else 128 ≤ c1 ∧ c1 ≤ 191) →
      128 ≤ c2 → c2 ≤ 191 →
      ValidUtf8 rest → ValidUtf8 (b :: c1 :: c2 :: rest)
  | four {b c1 c2 c3 : Nat} {rest : List Nat} :
      240 ≤ b → b ≤ 244 →
      (if b = 240 then 144 ≤ c1 ∧ c1 ≤ 191
       else if b = 244 then 128 ≤ c1 ∧ c1 ≤ 143
       else 128 ≤ c1 ∧ c1 ≤ 191) →
      128 ≤ c2 → c2 ≤ 191 → 128 ≤ c3 → c3 ≤ 191 →
      ValidUtf8 rest → ValidUtf8 (b :: c1 :: c2 :: c3 :: rest)

/-- JSON values, as produced by Flask `jsonify` and `requests` `Response.json()`. -/
inductive Json where
  | null
  | bool (b : Bool)
  | num (n : Int)
  | str (s : String)
  | arr (xs : List Json)
  | obj (fields : List (String × Json))

/-- An HTTP response the bridge returns to its caller: status code and JSON body. -/
structure Response where
  status : Nat
  body : Json

/-- One outbound call the bridge makes to the Render backend: the backend path
and the per-attempt timeout (seconds) passed to `requests`. -/
structure Attempt where
  path : String
  timeout : Nat
deriving DecidableEq

/-- An inbound request to the bridge: the raw body bytes, the
`X-HMAC-Signature` header (`none` when the header is absent), and the result
of `request.get_json()` on the body — `.ok` with the parsed JSON value when
the body parses, `.error` with the exception text when Flask raises
(BadRequest for a malformed body). -/
structure EngineRequest where
  rawBody : List Nat
  xHmacSignature : Option (List Nat)
  getJson : Except String Json

/-- The signature value `engine` reads: `request.headers.get("X-HMAC-Signature", "")`,
the empty string when the header is missing. -/
def requestSignature (req : EngineRequest) : List Nat :=
  req.xHmacSignature.getD []

/-- Behaviour of the backend for one outbound `/engine` call: a response whose
body parses as JSON, a response whose body does not parse (so `resp.json()`
raises, `parseErr` being the text of that exception), or a transport-level
exception from `requests.post` (timeout, connection refused, ...). -/
inductive BackendOutcome where
  | resp (status : Nat) (body : Json)
  | respUnparseable (status : Nat) (parseErr : String)
  | exn (detail : String)

/-- Per-attempt timeout passed to every outbound `requests` call (`TIMEOUT = 3`). -/
def TIMEOUT : Nat := 3

/-- Retry budget of the forwarding loop: the code performs a single
`requests.post` with no retry, so the budget is 0. -/
def retry_budget : Nat := 0

/-- The JSON error body `jsonify({"error": msg})`. -/
def errorJson (msg : String) : Json := Json.obj [("error", Json.str msg)]

/-- What the `/engine` handler invocation produces: an HTTP response built by
the handler itself, or an exception that escapes the handler (raised by
`verify_hmac`, which runs outside the try block) and falls through to Flask's
default 500 Internal Server Error page. -/
inductive EngineOutcome where
  | http (status : Nat) (body : Json)
  | raised (e : PyExn)

/-- The `/engine` route handler of `src/bridge/app.py`, paired with the list
of outbound backend calls it performs.  It reads the signature header and
decodes the raw body as text; if `verify_hmac` raises, the exception escapes
the handler (Flask 500) with no outbound call; if it returns false the
handler replies 401 with no outbound call.  Otherwise, inside the try block,
`request.get_json()` is evaluated first (as an argument of `requests.post`):
if it raises, the except clause replies 502 `Backend error` and no outbound
call has been made.  Only then does the single `requests.post` to the backend
`/engine` path run, its outcome mapped as: JSON response passed through with
its status, transport failure or `resp.json()` parse failure to a 502. -/
def engine (secret : List Nat) (backend : BackendOutcome) (req : EngineRequest) :
    EngineOutcome × List Attempt :=
  let signature := requestSignature req
  let body := utf8DecodeReplace req.rawBody
  match verify_hmac secret body signature with
  | .error e => (.raised e, [])
  | .ok false => (.http 401 (errorJson "Invalid HMAC signature"), [])
  | .ok true =>
    match req.getJson with
    | .error e => (.http 502 (errorJson (String.append "Backend error: " e)), [])
    | .ok _ =>
      match backend with
      | .resp status b => (.http status b, [⟨"/engine", TIMEOUT⟩])
      | .respUnparseable _ e =>
          (.http 502 (errorJson (String.append "Backend error: " e)), [⟨"/engine", TIMEOUT⟩])
      | .exn d =>
          (.http 502 (errorJson (String.append "Backend error: " d)), [⟨"/engine", TIMEOUT⟩])

/-- Behaviour of the backend for the probe's `requests.get` on `/status`:
either a response with some status code, or an exception (timeout, ...). -/
inductive ProbeOutcome where
  | resp (status : Nat)
  | exn (detail : String)

/-- The `/test-render` route handler of `src/bridge/app.py`, paired with its
outbound calls.  It never reads the inbound request (no signature check),
performs exactly one `requests.get` on the backend `/status` path with the
fixed timeout, and reports the backend status and measured latency on success
or a 500 with the exception text on failure.  `latencyMs` stands for the
measured wall-clock round trip. -/
def test_render (secret : List Nat) (_req : EngineRequest) (outcome : ProbeOutcome)
    (latencyMs : Nat) : Response × List Attempt :=
  match outcome with
  | .resp s =>
      (⟨200, Json.obj [("status", Json.str "OK"), ("backend_status", Json.num s),
         ("latency_ms", Json.num latencyMs),
         ("hmac_configured", Json.bool (!secret.isEmpty))]⟩,
       [⟨"/status", TIMEOUT⟩])
  | .exn d => (⟨500, errorJson d⟩, [⟨"/status", TIMEOUT⟩])

/-- Flask `MAX_CONTENT_LENGTH` configured by `src/bridge/app.py` line 25. -/
def MAX_CONTENT_LENGTH : Nat := 5 * 1024 * 1024

/-- Result of dispatching a request through the application: either the route
handler ran and produced its outcome, or the framework rejected the request
with 413 Request Entity Too Large. -/
inductive DispatchResult where
  | handled (outcome : EngineOutcome)
  | entityTooLarge

/-- Dispatch of a POST to `/engine` through the Flask application.  Modelled
from the spec and the framework contract of `app.config` MAX_CONTENT_LENGTH
(line 25 of `src/bridge/app.py`): Werkzeug rejects any request whose body
exceeds the configured maximum with 413 Request Entity Too Large before the
body reaches the handler, so neither `verify_hmac` nor any outbound call runs;
otherwise the `engine` handler runs as usual. -/
def app_dispatch_engine (secret : List Nat) (backend : BackendOutcome)
    (req : EngineRequest) : DispatchResult × List Attempt :=
  if MAX_CONTENT_LENGTH < req.rawBody.length then (.entityTooLarge, [])
  else ((DispatchResult.handled (engine secret backend req).1), (engine secret backend req).2)

/-- The byte sequence over which the keyed hash is computed when `engine`
verifies a request: the raw body is first decoded as text by
`request.get_data(as_text=True)` and then re-encoded by `data.encode()`
inside `verify_hmac`. -/
def engineHashedBytes (req : EngineRequest) : List Nat :=
  utf8Encode (utf8DecodeReplace req.rawBody)

/-- Bitwise or of naturals is zero exactly when both operands are zero. -/
theorem lor_eq_zero_iff (a b : Nat) : a ||| b = 0 ↔ a = 0 ∧ b = 0 := by
  constructor
  · intro h
    refine ⟨Nat.zero_of_testBit_eq_false fun i => ?_,
            Nat.zero_of_testBit_eq_false fun i => ?_⟩ <;>
    · have hbit := congrArg (Nat.testBit · i) h
      simp [Nat.testBit_or] at hbit
      tauto
  · rintro ⟨rfl, rfl⟩; rfl

/-- The accumulating fold of `compare_digest` ends at zero exactly when it
started at zero and every zipped pair of bytes is equal. -/
theorem foldl_or_eq_zero (l : List (Nat × Nat)) (r : Nat) :
    (l.foldl (fun acc p => acc ||| (p.1 ^^^ p.2)) r = 0) ↔
      (r = 0 ∧ ∀ p ∈ l, p.1 = p.2) := by
  induction l generalizing r with
  | nil => simp
  | cons x xs ih =>
    simp only [List.foldl_cons, ih, List.mem_cons, lor_eq_zero_iff, Nat.xor_eq_zero]
    constructor
    · rintro ⟨⟨hr, hx⟩, hxs⟩
      refine ⟨hr, fun p hp => ?_⟩
      rcases hp with h1 | h2
      · rw [h1]; exact hx
      · exact hxs p h2
    · rintro ⟨hr, hall⟩
      exact ⟨⟨hr, hall x (Or.inl rfl)⟩, fun p hp => hall p (Or.inr hp)⟩

/-- Two lists of equal length are equal exactly when every zipped pair agrees. -/
theorem zip_pointwise_eq (a : List Nat) : ∀ b : List Nat, a.length = b.length →
    ((∀ p ∈ a.zip b, p.1 = p.2) ↔ a = b) := by
  induction a with
  | nil =>
    intro b h
    cases b with
    | nil => simp
    | cons y ys => simp at h
  | cons x xs ih =>
    intro b h
    cases b with
    | nil => simp at h
    | cons y ys =>
      simp only [List.zip_cons_cons, List.mem_cons, List.cons.injEq]
      rw [← ih ys (by simpa using h)]
      constructor
      · intro hall
        exact ⟨hall (x, y) (Or.inl rfl), fun p hp => hall p (Or.inr hp)⟩
      · rintro ⟨hxy, hrest⟩ p hp
        rcases hp with h1 | h2
        · rw [h1]; exact hxy
        · exact hrest p h2

/-- Correctness of the constant-time loop: `tscmp` reports equality exactly
when its arguments are equal. -/
theorem tscmp_eq_true_iff (a b : List Nat) :
    tscmp a b = true ↔ a = b := by
  unfold tscmp
  by_cases h : a.length = b.length
  · rw [if_pos h, if_pos h, beq_iff_eq, foldl_or_eq_zero, zip_pointwise_eq a b h]
    simp
  · rw [if_neg h, if_neg h, beq_iff_eq, foldl_or_eq_zero]
    constructor
    · rintro ⟨h1, _⟩
      exact absurd h1 one_ne_zero
    · intro hab
      exact absurd (congrArg List.length hab) h

/-- Every byte produced by `toBytesBE` is below 256. -/
theorem toBytesBE_lt (n : Nat) : ∀ (x : Nat), ∀ b ∈ toBytesBE n x, b < 256 := by
  induction n with
  | zero =>
    intro x b hb
    simp [toBytesBE] at hb
  | succ n ih =>
    intro x b hb
    simp only [toBytesBE, List.mem_append, List.mem_singleton] at hb
    rcases hb with h | h
    · exact ih (x / 256) b h
    · subst h
      exact Nat.mod_lt _ (by omega)

/-- Every byte of a SHA-256 digest is below 256. -/
theorem sha256_bytes_lt (msg : List Nat) : ∀ b ∈ sha256 msg, b < 256 := by
  intro b hb
  unfold sha256 at hb
  simp only [List.mem_flatten, List.mem_map] at hb
  obtain ⟨l, ⟨w, hw, rfl⟩, hbl⟩ := hb
  exact toBytesBE_lt 4 w b hbl

/-- Every byte of an HMAC-SHA256 digest is below 256. -/
theorem hmacSha256_bytes_lt (key msg : List Nat) : ∀ b ∈ hmacSha256 key msg, b < 256 := by
  unfold hmacSha256
  exact sha256_bytes_lt _

/-- The hex rendering of a byte list is pure ASCII. -/
theorem hexdigest_ascii (l : List Nat) (hl : ∀ b ∈ l, b < 256) :
    ∀ c ∈ hexdigest l, c < 128 := by
  intro c hc
  unfold hexdigest at hc
  simp only [List.mem_flatten, List.mem_map] at hc
  obtain ⟨x, ⟨b, hbl, rfl⟩, hcx⟩ := hc
  have hb := hl b hbl
  simp only [List.mem_cons, List.not_mem_nil, or_false] at hcx
  rcases hcx with h | h
  · subst h
    unfold hexChar
    split <;> omega
  · subst h
    unfold hexChar
    split <;> omega

/-- On two ASCII operands `compare_digest` completes and reports equality
exactly when they are equal. -/
theorem compare_digest_eq_ok_true_iff (a b : List Nat)
    (ha : ∀ c ∈ a, c < 128) (hb : ∀ c ∈ b, c < 128) :
    compare_digest a b = Except.ok true ↔ a = b := by
  unfold compare_digest
  have hcond : (a.all (fun c => c < 128) && b.all (fun c => c < 128)) = true := by
    simp only [Bool.and_eq_true, List.all_eq_true, decide_eq_true_eq]
    exact ⟨ha, hb⟩
  rw [if_pos hcond]
  simp [tscmp_eq_true_iff]

/-- When the second operand holds a non-ASCII character, `compare_digest`
raises `TypeError` instead of returning. -/
theorem compare_digest_nonascii (a b : List Nat) (c : Nat) (hc : c ∈ b) (h128 : 128 ≤ c) :
    compare_digest a b = Except.error PyExn.typeError := by
  unfold compare_digest
  have hcond : ¬ ((a.all (fun c => c < 128) && b.all (fun c => c < 128)) = true) := by
    simp only [Bool.and_eq_true, List.all_eq_true, decide_eq_true_eq]
    rintro ⟨-, hball⟩
    exact absurd (hball c hc) (by omega)
  rw [if_neg hcond]

/-- With a non-empty secret, a surrogate-free body and an ASCII signature,
`verify_hmac` completes and accepts exactly the hex HMAC-SHA256 digest of the
UTF-8 encoded data. -/
theorem verify_hmac_eq_ok_true_iff (secret data signature : List Nat) (hs : secret ≠ [])
    (hdata : ∀ c ∈ data, ¬ (55296 ≤ c ∧ c ≤ 57343))
    (hsig : ∀ c ∈ signature, c < 128) :
    verify_hmac secret data signature = Except.ok true ↔
      signature = hexdigest (hmacSha256 secret (utf8Encode data)) := by
  unfold verify_hmac
  have hany : ¬ ((data.any fun c => 55296 ≤ c && c ≤ 57343) = true) := by
    simp only [List.any_eq_true, Bool.and_eq_true, decide_eq_true_eq]
    rintro ⟨c, hc, hrange⟩
    exact hdata c hc hrange
  rw [if_neg hs, if_neg hany,
    compare_digest_eq_ok_true_iff _ _ (hexdigest_ascii _ (hmacSha256_bytes_lt _ _)) hsig,
    eq_comm]

/-- With a non-empty secret and a surrogate-free body, the correctly computed
signature verifies. -/
theorem verify_hmac_self (secret data : List Nat) (hs : secret ≠ [])
    (hdata : ∀ c ∈ data, ¬ (55296 ≤ c ∧ c ≤ 57343)) :
    verify_hmac secret data (hexdigest (hmacSha256 secret (utf8Encode data))) =
      Except.ok true :=
  (verify_hmac_eq_ok_true_iff secret data _ hs hdata
    (hexdigest_ascii _ (hmacSha256_bytes_lt _ _))).mpr rfl

/-- At the concrete configured secret `[1]`, body `"a"` and the non-ASCII
signature `[255]`, `verify_hmac` raises `TypeError` from `compare_digest`
rather than returning a boolean. -/
theorem verify_hmac_nonascii_sig :
    verify_hmac [1] [97] [255] = Except.error PyExn.typeError := by
  unfold verify_hmac
  rw [if_neg (by decide), if_neg (by decide)]
  exact compare_digest_nonascii _ _ 255 (by simp) (by omega)

/-- The number of comparison iterations of `compare_digest` depends only on
the length of the second argument, never on the bytes compared. -/
theorem compareDigestSteps_eq (a b : List Nat) : compareDigestSteps a b = b.length := by
  unfold compareDigestSteps
  by_cases h : a.length = b.length <;> simp [h, List.length_zip]

/-- Encoding distributes over cons. -/
theorem utf8Encode_cons (c : Nat) (cs : List Nat) :
    utf8Encode (c :: cs) = utf8EncodeChar c ++ utf8Encode cs := by
  simp [utf8Encode]

/-- Round trip: on well-formed UTF-8 input, decoding with replacement followed
by re-encoding reproduces the input bytes exactly. -/
theorem utf8Encode_utf8DecodeReplace {l : List Nat} (h : ValidUtf8 l) :
    utf8Encode (utf8DecodeReplace l) = l := by
  induction h with
  | nil => simp [utf8DecodeReplace, utf8Encode]
  | @ascii b rest hb hv ih =>
    have hstep : utf8Step b rest = (b, 0) := by
      simp [utf8Step, hb]
    have hdec : utf8DecodeReplace (b :: rest) = b :: utf8DecodeReplace rest := by
      simp [utf8DecodeReplace, hstep]
    have hchar : utf8EncodeChar b = [b] := by
      simp [utf8EncodeChar, hb]
    rw [hdec, utf8Encode_cons, hchar, ih]
    rfl
  | @two b c rest h1 h2 h3 h4 hv ih =>
    have hstep : utf8Step b (c :: rest) = ((b - 192) * 64 + (c - 128), 1) := by
      simp [utf8Step, show ¬ b < 128 by omega, h1, h2, h3, h4]
    have hdec : utf8DecodeReplace (b :: c :: rest) =
        ((b - 192) * 64 + (c - 128)) :: utf8DecodeReplace rest := by
      simp [utf8DecodeReplace, hstep]
    have hchar : utf8EncodeChar ((b - 192) * 64 + (c - 128)) = [b, c] := by
      unfold utf8EncodeChar
      rw [if_neg (by omega), if_pos (by omega)]
      simp only [List.cons.injEq, and_true]
      omega
    rw [hdec, utf8Encode_cons, hchar, ih]
    rfl
  | @three b c1 c2 rest h1 h2 hc1 h3 h4 hv ih =>
    have hb1 : 128 ≤ c1 ∧ c1 ≤ 191 ∧
        2048 ≤ (b - 224) * 4096 + (c1 - 128) * 64 + (c2 - 128) := by
      by_cases e0 : b = 224
      · rw [if_pos e0] at hc1
        obtain ⟨ha, hb'⟩ := hc1
        subst e0
        omega
      · rw [if_neg e0] at hc1
        by_cases ed : b = 237
        · rw [if_pos ed] at hc1
          obtain ⟨ha, hb'⟩ := hc1
          subst ed
          omega
        · rw [if_neg ed] at hc1
          obtain ⟨ha, hb'⟩ := hc1
          omega
    obtain ⟨h5, h6, h7⟩ := hb1
    have hstep : utf8Step b (c1 :: c2 :: rest) =
        ((b - 224) * 4096 + (c1 - 128) * 64 + (c2 - 128), 2) := by
      simp [utf8Step, show ¬ b < 128 by omega, show ¬ (194 ≤ b ∧ b ≤ 223) by omega,
        h1, h2, hc1, h3, h4]
    have hdec : utf8DecodeReplace (b :: c1 :: c2 :: rest) =
        ((b - 224) * 4096 + (c1 - 128) * 64 + (c2 - 128)) :: utf8DecodeReplace rest := by
      simp [utf8DecodeReplace, hstep]
    have hchar : utf8EncodeChar ((b - 224) * 4096 + (c1 - 128) * 64 + (c2 - 128)) =
        [b, c1, c2] := by
      unfold utf8EncodeChar
      rw [if_neg (by omega), if_neg (by omega), if_pos (by omega)]
      simp only [List.cons.injEq, and_true]
      omega
    rw [hdec, utf8Encode_cons, hchar, ih]
    rfl
  | @four b c1 c2 c3 rest h1 h2 hc1 h3 h4 h5 h6 hv ih =>
    have hb1 : 128 ≤ c1 ∧ c1 ≤ 191 ∧
        65536 ≤ (b - 240) * 262144 + (c1 - 128) * 4096 + (c2 - 128) * 64 + (c3 - 128) := by
      by_cases e0 : b = 240
      · rw [if_pos e0] at hc1
        obtain ⟨ha, hb'⟩ := hc1
        subst e0
        omega
      · rw [if_neg e0] at hc1
        by_cases ed : b = 244
        · rw [if_pos ed] at hc1
          obtain ⟨ha, hb'⟩ := hc1
          subst ed
          omega
        · rw [if_neg ed] at hc1
          obtain ⟨ha, hb'⟩ := hc1
          omega
    obtain ⟨h7, h8, h9⟩ := hb1
    have hstep : utf8Step b (c1 :: c2 :: c3 :: rest) =
        ((b - 240) * 262144 + (c1 - 128) * 4096 + (c2 - 128) * 64 + (c3 - 128), 3) := by
      simp [utf8Step, show ¬ b < 128 by omega, show ¬ (194 ≤ b ∧ b ≤ 223) by omega,
        show ¬ (224 ≤ b ∧ b ≤ 239) by omega, h1, h2, hc1, h3, h4, h5, h6]
    have hdec : utf8DecodeReplace (b :: c1 :: c2 :: c3 :: rest) =
        ((b - 240) * 262144 + (c1 - 128) * 4096 + (c2 - 128) * 64 + (c3 - 128)) ::
          utf8DecodeReplace rest := by
      simp [utf8DecodeReplace, hstep]
    have hchar : utf8EncodeChar
        ((b - 240) * 262144 + (c1 - 128) * 4096 + (c2 - 128) * 64 + (c3 - 128)) =
        [b, c1, c2, c3] := by
      unfold utf8EncodeChar
      rw [if_neg (by omega), if_neg (by omega), if_neg (by omega)]
      simp only [List.cons.injEq, and_true]
      omega
    rw [hdec, utf8Encode_cons, hchar, ih]
    rfl

/-- C1 counterexample: with the non-empty secret `[1]` and body `"a"`, the
non-ASCII signature `[255]` (a reachable latin-1 header value) makes
`verify_hmac` raise `TypeError` inside `hmac.compare_digest` — it returns
neither false nor true, so "verify(B, s) is false for every other signature"
fails at this input. -/
theorem C1_counterexample :
    verify_hmac [1] [97] [255] = Except.error PyExn.typeError ∧
    verify_hmac [1] [97] [255] ≠ Except.ok false ∧
    verify_hmac [1] [97] [255] ≠ Except.ok true := by
  refine ⟨verify_hmac_nonascii_sig, ?_, ?_⟩ <;>
    rw [verify_hmac_nonascii_sig] <;> simp

/-- C1 (amended): for every request body free of lone surrogates, when the
process-wide shared secret is non-empty and the supplied signature is an
ASCII string, `verify_hmac` returns true exactly when the signature equals
the SHA-256 HMAC of the body under the secret rendered as a fixed-width
lowercase hexadecimal string; in particular the correctly computed signature
verifies and every other such signature is rejected.  A non-ASCII signature
(or a surrogate-bearing body) instead makes the function raise. -/
theorem C1_verify_accepts_exactly_hex_hmac (secret data signature : List Nat)
    (hs : secret ≠ [])
    (hdata : ∀ c ∈ data, ¬ (55296 ≤ c ∧ c ≤ 57343))
    (hsig : ∀ c ∈ signature, c < 128) :
    (verify_hmac secret data signature = Except.ok true ↔
      signature = hexdigest (hmacSha256 secret (utf8Encode data))) ∧
    verify_hmac secret data (hexdigest (hmacSha256 secret (utf8Encode data))) =
      Except.ok true :=
  ⟨verify_hmac_eq_ok_true_iff secret data signature hs hdata hsig,
   verify_hmac_self secret data hs hdata⟩

/-- Witness for C1 at a concrete secret, body and signature. -/
theorem C1_verify_accepts_exactly_hex_hmac_witness :
    ([1] : List Nat) ≠ [] ∧
    verify_hmac [1] [97] (hexdigest (hmacSha256 [1] (utf8Encode [97]))) =
      Except.ok true :=
  ⟨by decide,
   (C1_verify_accepts_exactly_hex_hmac [1] [97] [] (by decide) (by decide)
     (by decide)).2⟩

/-- C2: when the shared secret is empty or unconfigured, `verify_hmac`
returns false for every body and every signature, including the signature
that equals the keyed hash of the body under the empty key. -/
theorem C2_empty_secret_rejects_all (data signature : List Nat) :
    verify_hmac [] data signature = Except.ok false ∧
    verify_hmac [] data (hexdigest (hmacSha256 [] (utf8Encode data))) =
      Except.ok false := by
  constructor <;> simp [verify_hmac]

/-- C3 counterexample: with the configured secret `[1]` and an
`X-HMAC-Signature` header holding the latin-1 byte 0xFF, the signature does
not verify (it is not accepted), yet the handler does not answer 401 with the
JSON error body: `verify_hmac` raises `TypeError` at app.py line 39 and the
exception escapes to Flask's 500 handler.  No outbound call is made. -/
theorem C3_counterexample :
    verify_hmac [1] (utf8DecodeReplace [97])
        (requestSignature ⟨[97], some [255], Except.error "400 Bad Request"⟩) ≠
      Except.ok true ∧
    engine [1] (.exn "x") ⟨[97], some [255], Except.error "400 Bad Request"⟩ =
      (EngineOutcome.raised PyExn.typeError, []) ∧
    engine [1] (.exn "x") ⟨[97], some [255], Except.error "400 Bad Request"⟩ ≠
      (EngineOutcome.http 401 (errorJson "Invalid HMAC signature"), []) := by
  have hd : utf8DecodeReplace [97] = [97] := by
    simp [utf8DecodeReplace, utf8Step]
  have hv : verify_hmac [1] (utf8DecodeReplace [97])
      (requestSignature ⟨[97], some [255], Except.error "400 Bad Request"⟩) =
      Except.error PyExn.typeError := by
    rw [hd]
    exact verify_hmac_nonascii_sig
  refine ⟨by rw [hv]; simp, by simp [engine, hv], by simp [engine, hv]⟩

/-- C3 (amended): every request to `/engine` on which `verify_hmac` completes
and returns false (which covers any ASCII signature differing from the
digest, a missing `X-HMAC-Signature` header read as the empty string, and the
unconfigured-secret case) receives a 401 response with body
`{"error": "Invalid HMAC signature"}` and triggers no outbound backend call;
a request whose non-ASCII signature makes `verify_hmac` raise instead gets
Flask's 500, also with no outbound call. -/
theorem C3_reject_401_no_backend_call (secret : List Nat) (backend : BackendOutcome)
    (req : EngineRequest)
    (h : verify_hmac secret (utf8DecodeReplace req.rawBody) (requestSignature req) =
      Except.ok false) :
    engine secret backend req =
      (EngineOutcome.http 401 (errorJson "Invalid HMAC signature"), []) := by
  simp [engine, h]

/-- Witness for C3: unconfigured secret and missing signature header. -/
theorem C3_reject_401_no_backend_call_witness :
    verify_hmac [] (utf8DecodeReplace ([] : List Nat))
      (requestSignature ⟨[], none, Except.error "400 Bad Request"⟩) = Except.ok false ∧
    engine [] (.exn "timeout") ⟨[], none, Except.error "400 Bad Request"⟩ =
      (EngineOutcome.http 401 (errorJson "Invalid HMAC signature"), []) :=
  ⟨by simp [verify_hmac],
   C3_reject_401_no_backend_call [] (.exn "timeout")
     ⟨[], none, Except.error "400 Bad Request"⟩ (by simp [verify_hmac])⟩

/-- C4: every authenticated request whose backend call happens (the inbound
body parses as JSON, so `request.get_json()` does not raise before the post)
and completes with a JSON response is answered with exactly the backend
status code and exactly the backend body, for success and non-success
statuses alike. -/
theorem C4_passthrough_status_body (secret : List Nat) (req : EngineRequest)
    (status : Nat) (body j : Json)
    (hv : verify_hmac secret (utf8DecodeReplace req.rawBody) (requestSignature req) =
      Except.ok true)
    (hj : req.getJson = Except.ok j) :
    engine secret (.resp status body) req =
      (EngineOutcome.http status body, [⟨"/engine", TIMEOUT⟩]) := by
  simp [engine, hv, hj]

/-- Witness for C4: a backend 503 with body passed through unchanged, on the
JSON body `1` correctly signed under the secret `[1]`. -/
theorem C4_passthrough_status_body_witness :
    verify_hmac [1] (utf8DecodeReplace [49])
        (requestSignature ⟨[49], some (hexdigest (hmacSha256 [1] (utf8Encode [49]))),
          Except.ok (Json.num 1)⟩) = Except.ok true ∧
    engine [1] (.resp 503 (Json.obj [("detail", Json.str "x")]))
        ⟨[49], some (hexdigest (hmacSha256 [1] (utf8Encode [49]))),
          Except.ok (Json.num 1)⟩ =
      (EngineOutcome.http 503 (Json.obj [("detail", Json.str "x")]),
        [⟨"/engine", TIMEOUT⟩]) := by
  have hd : utf8DecodeReplace [49] = [49] := by
    simp [utf8DecodeReplace, utf8Step]
  have hv : verify_hmac [1] (utf8DecodeReplace [49])
      (requestSignature ⟨[49], some (hexdigest (hmacSha256 [1] (utf8Encode [49]))),
        Except.ok (Json.num 1)⟩) = Except.ok true := by
    rw [hd]
    exact verify_hmac_self [1] [49] (by decide) (by decide)
  exact ⟨hv, C4_passthrough_status_body [1] _ 503 _ (Json.num 1) hv rfl⟩

/-- C5 counterexample: an authenticated request (valid signature over the raw
body `"a"`) whose body does not parse as JSON makes zero outbound attempts
against an always-raising backend — `request.get_json()` raises inside the
try block before `requests.post` runs and the except clause answers 502 — so
"exactly 1 + retry_budget attempts" fails at this input. -/
theorem C5_counterexample :
    verify_hmac [1] (utf8DecodeReplace [97])
        (requestSignature ⟨[97], some (hexdigest (hmacSha256 [1] (utf8Encode [97]))),
          Except.error "400 Bad Request"⟩) = Except.ok true ∧
    (engine [1] (.exn "timed out")
        ⟨[97], some (hexdigest (hmacSha256 [1] (utf8Encode [97]))),
          Except.error "400 Bad Request"⟩).2.length = 0 ∧
    (engine [1] (.exn "timed out")
        ⟨[97], some (hexdigest (hmacSha256 [1] (utf8Encode [97]))),
          Except.error "400 Bad Request"⟩).2.length ≠ 1 + retry_budget := by
  have hd : utf8DecodeReplace [97] = [97] := by
    simp [utf8DecodeReplace, utf8Step]
  have hv : verify_hmac [1] (utf8DecodeReplace [97])
      (requestSignature ⟨[97], some (hexdigest (hmacSha256 [1] (utf8Encode [97]))),
        Except.error "400 Bad Request"⟩) = Except.ok true := by
    rw [hd]
    exact verify_hmac_self [1] [97] (by decide) (by decide)
  refine ⟨hv, by simp [engine, hv], by simp [engine, hv, retry_budget]⟩

/-- C5 (amended): against a backend whose call raises (timeout or connection
failure), an authenticated request whose body parses as JSON causes exactly
one outbound attempt, that is `1 + retry_budget` attempts with the code's
retry budget of zero, and the caller receives 502 with body
`{"error": "Backend error: <detail>"}`; an authenticated request whose body
does not parse as JSON receives the 502 after zero attempts. -/
theorem C5_single_attempt_then_502 (secret : List Nat) (req : EngineRequest)
    (d : String) (j : Json)
    (hv : verify_hmac secret (utf8DecodeReplace req.rawBody) (requestSignature req) =
      Except.ok true)
    (hj : req.getJson = Except.ok j) :
    engine secret (.exn d) req =
      (EngineOutcome.http 502 (errorJson (String.append "Backend error: " d)),
        [⟨"/engine", TIMEOUT⟩]) ∧
    (engine secret (.exn d) req).2.length = 1 + retry_budget := by
  constructor
  · simp [engine, hv, hj]
  · simp [engine, hv, hj, retry_budget]

/-- Witness for C5 at a concrete authenticated JSON request and a timing-out
backend. -/
theorem C5_single_attempt_then_502_witness :
    verify_hmac [1] (utf8DecodeReplace [49])
        (requestSignature ⟨[49], some (hexdigest (hmacSha256 [1] (utf8Encode [49]))),
          Except.ok (Json.num 1)⟩) = Except.ok true ∧
    engine [1] (.exn "timed out")
        ⟨[49], some (hexdigest (hmacSha256 [1] (utf8Encode [49]))),
          Except.ok (Json.num 1)⟩ =
      (EngineOutcome.http 502 (errorJson (String.append "Backend error: " "timed out")),
        [⟨"/engine", TIMEOUT⟩]) := by
  have hd : utf8DecodeReplace [49] = [49] := by
    simp [utf8DecodeReplace, utf8Step]
  have hv : verify_hmac [1] (utf8DecodeReplace [49])
      (requestSignature ⟨[49], some (hexdigest (hmacSha256 [1] (utf8Encode [49]))),
        Except.ok (Json.num 1)⟩) = Except.ok true := by
    rw [hd]
    exact verify_hmac_self [1] [49] (by decide) (by decide)
  exact ⟨hv, (C5_single_attempt_then_502 [1]
    ⟨[49], some (hexdigest (hmacSha256 [1] (utf8Encode [49]))), Except.ok (Json.num 1)⟩
    "timed out" (Json.num 1) hv rfl).1⟩

/-- C6 counterexample: the body consisting of the single byte 0xFF is decoded
with a replacement character and re-encoded, so the keyed hash in `engine` is
computed over bytes different from the raw body. -/
theorem C6_hashed_bytes_counterexample :
    engineHashedBytes ⟨[255], none, Except.error "400 Bad Request"⟩ ≠ [255] := by
  show utf8Encode (utf8DecodeReplace [255]) ≠ [255]
  rw [show utf8DecodeReplace [255] = [65533] from by simp [utf8DecodeReplace, utf8Step]]
  decide

/-- C6 (amended): for every inbound request on the authenticated route whose
raw body is well-formed UTF-8, the byte sequence over which the keyed hash is
computed during verification is exactly the raw body; bodies that are not
valid UTF-8 are decoded with replacement characters and re-encoded, so for
them the hash covers transformed bytes. -/
theorem C6_hashed_bytes_eq_raw_on_utf8 (req : EngineRequest)
    (h : ValidUtf8 req.rawBody) :
    engineHashedBytes req = req.rawBody :=
  utf8Encode_utf8DecodeReplace h

/-- Witness for C6 on a valid two-codepoint UTF-8 body. -/
theorem C6_hashed_bytes_eq_raw_on_utf8_witness :
    ValidUtf8 [97, 195, 169] ∧
    engineHashedBytes ⟨[97, 195, 169], none, Except.error "400 Bad Request"⟩ =
      [97, 195, 169] :=
  have hv : ValidUtf8 [97, 195, 169] :=
    ValidUtf8.ascii (by omega)
      (ValidUtf8.two (by omega) (by omega) (by omega) (by omega) ValidUtf8.nil)
  ⟨hv, C6_hashed_bytes_eq_raw_on_utf8
    ⟨[97, 195, 169], none, Except.error "400 Bad Request"⟩ hv⟩

/-- C7: the signature comparison inside `verify_hmac` is the constant-time
primitive `hmac.compare_digest`: the number of comparison iterations of its
`_tscmp` loop depends only on the operand lengths, never on where the first
mismatching byte occurs, and `verify_hmac` returns true only when that
comparison reports equality. -/
theorem C7_constant_time_compare :
    (∀ a b a' b' : List Nat, a.length = a'.length → b.length = b'.length →
        compareDigestSteps a b = compareDigestSteps a' b') ∧
    (∀ secret data signature : List Nat,
        verify_hmac secret data signature = Except.ok true →
        compare_digest (hexdigest (hmacSha256 secret (utf8Encode data))) signature =
          Except.ok true) := by
  constructor
  · intro a b a' b' _ hb
    rw [compareDigestSteps_eq, compareDigestSteps_eq, hb]
  · intro secret data signature h
    unfold verify_hmac at h
    by_cases hs : secret = []
    · rw [if_pos hs] at h
      exact absurd h (by simp)
    · rw [if_neg hs] at h
      by_cases hd : (data.any fun c => 55296 ≤ c && c ≤ 57343) = true
      · rw [if_pos hd] at h
        exact absurd h (by simp)
      · rwa [if_neg hd] at h

/-- Witness for C7 at concrete operands. -/
theorem C7_constant_time_compare_witness :
    compareDigestSteps [0, 1] [2, 3] = compareDigestSteps [9, 8] [7, 6] ∧
    compare_digest (hexdigest (hmacSha256 [1] (utf8Encode [2])))
      (hexdigest (hmacSha256 [1] (utf8Encode [2]))) = Except.ok true :=
  ⟨C7_constant_time_compare.1 [0, 1] [2, 3] [9, 8] [7, 6] rfl rfl,
   C7_constant_time_compare.2 [1] [2] (hexdigest (hmacSha256 [1] (utf8Encode [2])))
     (verify_hmac_self [1] [2] (by decide) (by decide))⟩

/-- C8: the `/test-render` probe makes exactly one outbound attempt, always on
the backend `/status` path with the fixed per-attempt timeout applied; it
never reads the inbound request (so no signature verification); on failure it
returns 500 with body `{"error": "<detail>"}` and on success 200 reporting the
backend status code and the measured round-trip latency. -/
theorem C8_probe_single_timed_attempt :
    (∀ (secret : List Nat) (req : EngineRequest) (outcome : ProbeOutcome) (lat : Nat),
        (test_render secret req outcome lat).2 = [⟨"/status", TIMEOUT⟩]) ∧
    (∀ (secret : List Nat) (req : EngineRequest) (d : String) (lat : Nat),
        (test_render secret req (.exn d) lat).1 = ⟨500, errorJson d⟩) ∧
    (∀ (secret : List Nat) (req : EngineRequest) (s lat : Nat),
        (test_render secret req (.resp s) lat).1 =
          ⟨200, Json.obj [("status", Json.str "OK"), ("backend_status", Json.num s),
            ("latency_ms", Json.num lat), ("hmac_configured", Json.bool (!secret.isEmpty))]⟩) ∧
    (∀ (secret : List Nat) (req req' : EngineRequest) (outcome : ProbeOutcome) (lat : Nat),
        test_render secret req outcome lat = test_render secret req' outcome lat) := by
  refine ⟨fun secret req outcome lat => ?_, fun _ _ _ _ => rfl, fun _ _ _ _ => rfl,
    fun secret req req' outcome lat => ?_⟩ <;> cases outcome <;> rfl

/-- C9: an authenticated request whose backend call happens (the inbound body
parses as JSON) and returns a response whose body does not parse as JSON is
answered with 502 and `{"error": "Backend error: <detail>"}` rather than a
pass-through of the backend status and body, because the `resp.json()`
failure is caught by the same except branch as transport failures. -/
theorem C9_unparseable_body_502 (secret : List Nat) (req : EngineRequest)
    (status : Nat) (e : String) (j : Json)
    (hv : verify_hmac secret (utf8DecodeReplace req.rawBody) (requestSignature req) =
      Except.ok true)
    (hj : req.getJson = Except.ok j) :
    engine secret (.respUnparseable status e) req =
      (EngineOutcome.http 502 (errorJson (String.append "Backend error: " e)),
        [⟨"/engine", TIMEOUT⟩]) := by
  simp [engine, hv, hj]

/-- Witness for C9: a backend 200 whose body is not JSON yields a 502. -/
theorem C9_unparseable_body_502_witness :
    verify_hmac [1] (utf8DecodeReplace [49])
        (requestSignature ⟨[49], some (hexdigest (hmacSha256 [1] (utf8Encode [49]))),
          Except.ok (Json.num 1)⟩) = Except.ok true ∧
    engine [1] (.respUnparseable 200 "Expecting value")
        ⟨[49], some (hexdigest (hmacSha256 [1] (utf8Encode [49]))),
          Except.ok (Json.num 1)⟩ =
      (EngineOutcome.http 502 (errorJson (String.append "Backend error: " "Expecting value")),
        [⟨"/engine", TIMEOUT⟩]) := by
  have hd : utf8DecodeReplace [49] = [49] := by
    simp [utf8DecodeReplace, utf8Step]
  have hv : verify_hmac [1] (utf8DecodeReplace [49])
      (requestSignature ⟨[49], some (hexdigest (hmacSha256 [1] (utf8Encode [49]))),
        Except.ok (Json.num 1)⟩) = Except.ok true := by
    rw [hd]
    exact verify_hmac_self [1] [49] (by decide) (by decide)
  exact ⟨hv, C9_unparseable_body_502 [1] _ 200 "Expecting value" (Json.num 1) hv rfl⟩

/-- C10: every inbound request whose body exceeds the configured maximum
content length of 5 * 1024 * 1024 bytes is rejected by the framework before
the route handler runs: no signature verification happens and no outbound
backend call is made, whatever the secret, signature and backend. -/
theorem C10_oversized_body_rejected (secret : List Nat) (backend : BackendOutcome)
    (req : EngineRequest) (h : MAX_CONTENT_LENGTH < req.rawBody.length) :
    app_dispatch_engine secret backend req = (DispatchResult.entityTooLarge, []) := by
  simp [app_dispatch_engine, h]

/-- Witness for C10 on a body of 5 MiB plus one byte. -/
theorem C10_oversized_body_rejected_witness :
    MAX_CONTENT_LENGTH < (List.replicate 5242881 (0 : Nat)).length ∧
    app_dispatch_engine [] (.exn "x")
        ⟨List.replicate 5242881 0, none, Except.error "400 Bad Request"⟩ =
      (DispatchResult.entityTooLarge, []) :=
  have h : MAX_CONTENT_LENGTH < (List.replicate 5242881 (0 : Nat)).length := by
    rw [List.length_replicate]
    norm_num [MAX_CONTENT_LENGTH]
  ⟨h, C10_oversized_body_rejected [] (.exn "x")
    ⟨List.replicate 5242881 0, none, Except.error "400 Bad Request"⟩ h⟩
